import Mathlib

/-!
Verification of the Vehicle Lifecycle & Billing Ledger of the parking-lot
management utility (src/main.py).

Shallow embedding conventions:
* Python floats are modelled as exact rationals `ℚ`; every concrete input used
  below is dyadic, so Python's binary floating point computes it exactly.
* `pandas` timestamps are modelled as minutes since the civil epoch (an `Int`);
  `pd.to_datetime(s, format="%d-%m-%Y %H:%M")` is modelled by `parseTimestamp`.
* Python's built-in `round(x, 2)` rounds half to even (banker's rounding);
  it is modelled by `roundHalfEven2`.
* A `DataFrame` of vehicle rows is a `List VehicleRecord`; an empty `ExitTime`
  cell is `none`.
* Python dynamic typing of `calculate_rent`'s `exit_time` argument (a raw
  string or an already-parsed timestamp) is modelled by the sum type `TimeVal`;
  subtracting a pandas timestamp from a `str` raises `TypeError`.
* Exceptions surfaced by the code are labelled by `RentError`; each
  constructor names one distinct failure mode of the Python code.
-/

namespace Parking

/-- Python's `round` to an integer: round half to even (banker's rounding). -/
def roundHalfEven (q : ℚ) : ℤ :=
  if Int.fract q = 1/2 then (if ⌊q⌋ % 2 = 0 then ⌊q⌋ else ⌊q⌋ + 1) else round q

/-- Python's `round(x, 2)`: round to two decimal places, half to even. -/
def roundHalfEven2 (q : ℚ) : ℚ :=
  (roundHalfEven (q * 100) : ℚ) / 100

/-- Modelled from the spec: "standard half-up rounding to 2 decimal places",
used only to compare the spec's stated rounding rule with the code's. -/
def roundHalfUp2 (q : ℚ) : ℚ :=
  (⌊q * 100 + 1/2⌋ : ℚ) / 100

/-- Numeric value of a digit string, most significant digit first. -/
def digitsToNat (cs : List Char) : Nat :=
  cs.foldl (fun acc c => acc * 10 + (c.toNat - 48)) 0

/-- Split a character list at every occurrence of the separator `c`. -/
def splitOnChar (c : Char) : List Char → List (List Char)
  | [] => [[]]
  | a :: as =>
    if a == c then [] :: splitOnChar c as
    else
      match splitOnChar c as with
      | r :: rs => (a :: r) :: rs
      | [] => [[a]]

/-- Gregorian leap-year rule. -/
def isLeapYear (y : Nat) : Bool :=
  (y % 4 == 0 && y % 100 != 0) || (y % 400 == 0)

/-- Number of days in the given month of the given year. -/
def daysInMonth (y m : Nat) : Nat :=
  if m == 2 then (if isLeapYear y then 29 else 28)
  else if m == 4 || m == 6 || m == 9 || m == 11 then 30
  else 31

/-- Days since the civil epoch 1970-01-01 of the Gregorian date y-m-d
(standard civil-calendar conversion; used only with `1 ≤ y`). -/
def daysFromCivil (y m d : Nat) : Int :=
  let y2 : Int := if m ≤ 2 then (y : Int) - 1 else (y : Int)
  let era : Int := y2 / 400
  let yoe : Int := y2 - era * 400
  let mp : Int := if 2 < m then (m : Int) - 3 else (m : Int) + 9
  let doy : Int := (153 * mp + 2) / 5 + (d : Int) - 1
  let doe : Int := yoe * 365 + yoe / 4 - yoe / 100 + doy
  era * 146097 + doe - 719468

/-- Parse one numeric field of at most `maxLen` digits. -/
def parseField (cs : List Char) (maxLen : Nat) : Option Nat :=
  if 1 ≤ cs.length ∧ cs.length ≤ maxLen ∧ cs.all (fun c => c.isDigit) then
    some (digitsToNat cs)
  else none

/-- Model of `pd.to_datetime(s, format="%d-%m-%Y %H:%M")`: parse a
`DD-MM-YYYY HH:MM` string to minutes since the civil epoch, or fail. -/
def parseTimestamp (s : String) : Option Int :=
  match splitOnChar ' ' s.toList with
  | [datePart, timePart] =>
    match splitOnChar '-' datePart, splitOnChar ':' timePart with
    | [ds, ms, ys], [hs, mins] =>
      match parseField ds 2, parseField ms 2, parseField ys 4,
            parseField hs 2, parseField mins 2 with
      | some d, some mo, some y, some h, some mi =>
        if 1 ≤ y ∧ 1 ≤ mo ∧ mo ≤ 12 ∧ 1 ≤ d ∧ d ≤ daysInMonth y mo ∧
           h ≤ 23 ∧ mi ≤ 59 then
          some (daysFromCivil y mo d * 1440 + (h : Int) * 60 + (mi : Int))
        else none
      | _, _, _, _, _ => none
    | _, _ => none
  | _ => none

/-- One row of `rent_rates.csv`: columns `Type` and `RatePerHour`. -/
structure RateEntry where
  type : String
  ratePerHour : ℚ
deriving DecidableEq

/-- One row of `vehicles.csv`: columns Token, LicenseNumber, Type, EntryTime,
ExitTime (empty cell = `none`, modelled as parsed minutes once set), Slot. -/
structure VehicleRecord where
  token : String
  licenseNumber : String
  vtype : String
  entryTime : String
  exitTime : Option Int
  slot : String
deriving DecidableEq

/-- Labels for the distinct failure modes (Python exceptions) of the code:
timestamp parse failure, `str - Timestamp` subtraction, indexing the empty
selection `rates[rates[Type] == vt][RatePerHour].values[0]`, and an empty
token lookup result in the exit handler. -/
inductive RentError
  | timeFormatError
  | typeError
  | unknownCategoryError
  | notFoundError
deriving DecidableEq

/-- A Python value passed as `exit_time`: either a raw string or an
already-parsed pandas timestamp. -/
inductive TimeVal
  | str (s : String)
  | ts (t : Int)
deriving DecidableEq

instance : DecidableEq (Except RentError ℚ) := fun a b =>
  match a, b with
  | .ok x, .ok y => decidable_of_iff (x = y) (by simp)
  | .error x, .error y => decidable_of_iff (x = y) (by simp)
  | .ok _, .error _ => isFalse (by simp)
  | .error _, .ok _ => isFalse (by simp)

/-- Model of `calculate_rent(vehicle_type, entry_time, exit_time)`
(src/main.py lines 72-85): parses `entry_time` inside the function, subtracts
to get the duration (a `TypeError` if `exit_time` is still a raw string),
looks up the first matching rate row, and returns
`round(duration_seconds / 3600 * rate, 2)`. The global `rates` table is an
explicit argument. -/
def calculate_rent (vehicle_type entry_time : String) (exit_time : TimeVal)
    (rates : List RateEntry) : Except RentError ℚ :=
  match parseTimestamp entry_time with
  | none => .error .timeFormatError
  | some entryT =>
    match exit_time with
    | .str _ => .error .typeError
    | .ts exitT =>
      match (rates.filter (fun r => r.type == vehicle_type)).head? with
      | none => .error .unknownCategoryError
      | some r =>
        .ok (roundHalfEven2 (((exitT - entryT : Int) : ℚ) * 60 / 3600 *
          r.ratePerHour))

/-- Model of the `add_vehicle` form handler (src/main.py lines 109-114): on
submission the new row (with empty ExitTime) is appended to the vehicles
table unconditionally; no validation of any kind is performed. -/
def add_vehicle (ledger : List VehicleRecord)
    (token licenseNumber vtype entryTime slot : String) : List VehicleRecord :=
  ledger ++ [⟨token, licenseNumber, vtype, entryTime, none, slot⟩]

/-- Model of `vehicles[vehicles[Token].astype(str) == exit_token]`
(src/main.py line 121): all rows whose token matches, open or closed. -/
def findToken (ledger : List VehicleRecord) (tok : String) : List VehicleRecord :=
  ledger.filter (fun r => r.token == tok)

/-- Model of the exit-stamping step (src/main.py lines 140-141):
`vehicles.loc[vehicles[Token].astype(str) == exit_token, ExitTime] = exit_time`
sets the parsed exit time on every row whose token matches. -/
def closeSession (ledger : List VehicleRecord) (tok : String) (exitT : Int) :
    List VehicleRecord :=
  ledger.map (fun v => if v.token == tok then { v with exitTime := some exitT } else v)

/-- Modelled from the spec: `findOpenByToken(token)` returns the unique open
record matching the token, or none. The Python code has no such helper (its
lookup on line 121 ignores open/closed status); this observer is used to state
the round-trip claim about the exit handler. -/
def findOpenByToken (ledger : List VehicleRecord) (tok : String) :
    Option VehicleRecord :=
  ledger.find? (fun r => r.token == tok && r.exitTime.isNone)

/-- Model of the exit handler (src/main.py lines 120-146): look the token up
among all rows; if no row matches, warn (NotFoundError) and leave the table
alone; otherwise parse the exit-time string, compute the rent from the first
matching row's Type and EntryTime, and only on success stamp ExitTime on the
matching rows and persist. Any exception inside the `try` block (time parse
failure, or an error raised by `calculate_rent`) is caught before the table is
mutated. Returns the interaction result together with the resulting table. -/
def exitHandler (ledger : List VehicleRecord) (exit_token exit_time_str : String)
    (rates : List RateEntry) : Except RentError ℚ × List VehicleRecord :=
  match (findToken ledger exit_token).head? with
  | none => (.error .notFoundError, ledger)
  | some r =>
    match parseTimestamp exit_time_str with
    | none => (.error .timeFormatError, ledger)
    | some exitT =>
      match calculate_rent r.vtype r.entryTime (.ts exitT) rates with
      | .error e => (.error e, ledger)
      | .ok rent => (.ok rent, closeSession ledger exit_token exitT)

/-- Lowercase a string character by character (model of Python `str.lower`
restricted to ASCII labels). -/
def strLower (s : String) : String :=
  String.mk (s.toList.map Char.toLower)

/-- Check whether one character list is an initial segment of another. -/
def listStartsWith : List Char → List Char → Bool
  | [], _ => true
  | _ :: _, [] => false
  | a :: as, b :: bs => a == b && listStartsWith as bs

/-- Model of Python's substring test `sub in s`. -/
def strContains (s sub : String) : Bool :=
  (List.range (s.toList.length + 1)).any
    (fun i => listStartsWith sub.toList (s.toList.drop i))

/-- Loop body of `detect_vehicle_type` (src/main.py lines 35-44): scan the
decoded prediction labels in order, mapping the first label containing
"car", "motorcycle" or "truck" to its category; otherwise return Unknown. -/
def detectLoop : List String → String
  | [] => "Unknown"
  | p :: ps =>
    if strContains (strLower p) "car" then "Car"
    else if strContains (strLower p) "motorcycle" then "Bike"
    else if strContains (strLower p) "truck" then "Truck"
    else detectLoop ps

/-- Model of `detect_vehicle_type` (src/main.py lines 22-46). The external
classifier run (image load, preprocessing, prediction, decoding) is the input:
`.ok labels` is the list of decoded top labels, `.error e` means some step of
the `try` block raised an exception with message `e`. The handler returns the
matched category, "Unknown" when no label matches, and the string
`"Error: <e>"` when an exception was raised. -/
def detect_vehicle_type (predictions : Except String (List String)) : String :=
  match predictions with
  | .error e => "Error: " ++ e
  | .ok preds => detectLoop preds

/-! Lemmas about banker's rounding. -/

theorem fract_half_eq {q : ℚ} (h : Int.fract q = 1/2) : q = (⌊q⌋ : ℚ) + 1/2 := by
  have h2 : q - (⌊q⌋ : ℚ) = 1/2 := by rw [Int.self_sub_floor]; exact h
  linarith

theorem round_of_fract_half {q : ℚ} (h : Int.fract q = 1/2) :
    round q = ⌊q⌋ + 1 := by
  have hq := fract_half_eq h
  have h3 : q + 1/2 = ((⌊q⌋ + 1 : ℤ) : ℚ) := by push_cast; linarith
  rw [round_eq, h3, Int.floor_intCast]

theorem roundHalfEven_le_round (q : ℚ) : roundHalfEven q ≤ round q := by
  unfold roundHalfEven
  split
  · next h =>
    rw [round_of_fract_half h]
    split <;> omega
  · exact le_refl _

theorem round_sub_one_le_roundHalfEven (q : ℚ) :
    round q - 1 ≤ roundHalfEven q := by
  unfold roundHalfEven
  split
  · next h =>
    rw [round_of_fract_half h]
    split <;> omega
  · omega

theorem roundHalfEven_mono {x y : ℚ} (h : x ≤ y) :
    roundHalfEven x ≤ roundHalfEven y := by
  by_contra hc
  push_neg at hc
  have hrm : round x ≤ round y := by
    rw [round_eq, round_eq]
    exact Int.floor_mono (by linarith)
  have h1 := roundHalfEven_le_round x
  have h2 := round_sub_one_le_roundHalfEven y
  have h3 := roundHalfEven_le_round y
  have hy_lt : roundHalfEven y < round y := by omega
  have hfy : Int.fract y = 1/2 := by
    by_contra hne
    have heq : roundHalfEven y = round y := by
      unfold roundHalfEven
      rw [if_neg hne]
    omega
  have hyv : y = (⌊y⌋ : ℚ) + 1/2 := fract_half_eq hfy
  have hry : round y = ⌊y⌋ + 1 := round_of_fract_half hfy
  have hrx : round x = ⌊y⌋ + 1 := by omega
  have hfl : ((⌊y⌋ + 1 : ℤ) : ℚ) ≤ x + 1/2 := by
    have hb := Int.floor_le (x + 1/2 : ℚ)
    rw [← round_eq, hrx] at hb
    exact hb
  have hyx : y ≤ x := by push_cast at hfl; linarith
  have hxy : x = y := le_antisymm h hyx
  rw [hxy] at hc
  omega

theorem roundHalfEven_zero : roundHalfEven 0 = 0 := by
  unfold roundHalfEven
  rw [Int.fract_zero]
  norm_num

theorem roundHalfEven2_mono {x y : ℚ} (h : x ≤ y) :
    roundHalfEven2 x ≤ roundHalfEven2 y := by
  unfold roundHalfEven2
  have h1 : roundHalfEven (x * 100) ≤ roundHalfEven (y * 100) :=
    roundHalfEven_mono (by linarith)
  have h2 : ((roundHalfEven (x * 100) : ℤ) : ℚ) ≤ ((roundHalfEven (y * 100) : ℤ) : ℚ) := by
    exact_mod_cast h1
  linarith

theorem roundHalfEven2_zero : roundHalfEven2 0 = 0 := by
  unfold roundHalfEven2
  rw [show ((0 : ℚ) * 100) = 0 by ring, roundHalfEven_zero]
  norm_num

theorem roundHalfEven2_nonneg {q : ℚ} (h : 0 ≤ q) : 0 ≤ roundHalfEven2 q := by
  have := roundHalfEven2_mono h
  rw [roundHalfEven2_zero] at this
  exact this

theorem roundHalfEven2_nonpos {q : ℚ} (h : q ≤ 0) : roundHalfEven2 q ≤ 0 := by
  have := roundHalfEven2_mono h
  rw [roundHalfEven2_zero] at this
  exact this

/-! Helper lemmas about the billing engine. -/

theorem calculate_rent_eq {vt es : String} {te : Int} {rates : List RateEntry}
    {r : RateEntry} (hparse : parseTimestamp es = some te)
    (hrate : (rates.filter (fun x => x.type == vt)).head? = some r) (t : Int) :
    calculate_rent vt es (.ts t) rates =
      .ok (roundHalfEven2 (((t - te : Int) : ℚ) * 60 / 3600 * r.ratePerHour)) := by
  simp only [calculate_rent, hparse, hrate]

unseal Rat.mul Rat.add Rat.sub Rat.inv in
/-- Claim C1 counterexample: with category Car (rate 20.00), entry
"01-01-2024 12:00" and exit two hours EARLIER (10:00), `calculate_rent` does
not fail with any error: it returns the amount -40.00. The code has no
exit-before-entry check at all. -/
theorem C1_counterexample :
    parseTimestamp "01-01-2024 12:00" = some (daysFromCivil 2024 1 1 * 1440 + 720) ∧
    daysFromCivil 2024 1 1 * 1440 + 600 < daysFromCivil 2024 1 1 * 1440 + 720 ∧
    calculate_rent "Car" "01-01-2024 12:00"
      (.ts (daysFromCivil 2024 1 1 * 1440 + 600)) [⟨"Car", 20⟩] = .ok (-40) := by
  decide

/-- Claim C1 (amended): for every category present in the rate table with a
non-negative rate, valid entry string and exit timestamp strictly before the
entry, `calculate_rent` succeeds (no `InvalidIntervalError`) and returns a
non-positive amount. -/
theorem C1_no_interval_check (vt es : String) (te t : Int)
    (rates : List RateEntry) (r : RateEntry)
    (hparse : parseTimestamp es = some te)
    (hrate : (rates.filter (fun x => x.type == vt)).head? = some r)
    (hr : 0 ≤ r.ratePerHour) (hlt : t < te) :
    ∃ q, calculate_rent vt es (.ts t) rates = .ok q ∧ q ≤ 0 := by
  refine ⟨_, calculate_rent_eq hparse hrate t, ?_⟩
  apply roundHalfEven2_nonpos
  have hx : ((t - te : Int) : ℚ) ≤ 0 := by
    exact_mod_cast (by omega : (t - te : Int) ≤ 0)
  have h60 : ((t - te : Int) : ℚ) * 60 / 3600 ≤ 0 := by linarith
  have := mul_nonneg (neg_nonneg.2 h60) hr
  nlinarith

/-- Claim C1 witness: the amended statement instantiated at the
counterexample's input. -/
theorem C1_witness :
    ∃ q, calculate_rent "Car" "01-01-2024 12:00"
      (.ts (daysFromCivil 2024 1 1 * 1440 + 600)) [⟨"Car", 20⟩] = .ok q ∧ q ≤ 0 :=
  C1_no_interval_check "Car" "01-01-2024 12:00"
    (daysFromCivil 2024 1 1 * 1440 + 720) (daysFromCivil 2024 1 1 * 1440 + 600)
    [⟨"Car", 20⟩] ⟨"Car", 20⟩ (by decide) (by decide) (by decide) (by decide)

unseal Rat.mul Rat.add Rat.sub Rat.inv in
/-- Claim C4 counterexample: with rate 0.50 and a 15-minute stay the exact
product is 0.125; Python's `round` (half to even) gives 0.12, while the
spec's "standard half-up rounding" gives 0.13. -/
theorem C4_counterexample :
    parseTimestamp "01-01-2024 10:00" = some (daysFromCivil 2024 1 1 * 1440 + 600) ∧
    calculate_rent "Car" "01-01-2024 10:00"
      (.ts (daysFromCivil 2024 1 1 * 1440 + 615)) [⟨"Car", 1/2⟩] = .ok (12/100) ∧
    roundHalfUp2 ((15 : ℚ) * 60 / 3600 * (1/2)) = 13/100 ∧
    ((12 : ℚ)/100) ≠ (13 : ℚ)/100 := by
  decide

unseal Rat.mul Rat.add Rat.sub Rat.inv in
/-- Claim C4 (amended): for every category with a rate in the table and valid
pair of timestamps with exit at or after entry, the rent equals
`roundHalfEven2((exit - entry in seconds) / 3600 * ratePerHour)` — rounding
to 2 decimal places half to EVEN (Python's `round`), not half-up — and in
particular the Car example (rate 20.00, 10:00 to 12:30) yields 50.00. -/
theorem C4_rent_formula_half_even :
    (∀ (vt es : String) (te t : Int) (rates : List RateEntry) (r : RateEntry),
      parseTimestamp es = some te →
      (rates.filter (fun x => x.type == vt)).head? = some r →
      te ≤ t →
      calculate_rent vt es (.ts t) rates =
        .ok (roundHalfEven2 (((t - te : Int) : ℚ) * 60 / 3600 * r.ratePerHour))) ∧
    calculate_rent "Car" "01-01-2024 10:00"
      (.ts (daysFromCivil 2024 1 1 * 1440 + 750)) [⟨"Car", 20⟩] = .ok 50 := by
  constructor
  · intro vt es te t rates r hparse hrate _
    exact calculate_rent_eq hparse hrate t
  · decide

/-- Claim C4 witness: the amended formula instantiated at the Car example. -/
theorem C4_witness :
    calculate_rent "Car" "01-01-2024 10:00"
      (.ts (daysFromCivil 2024 1 1 * 1440 + 750)) [⟨"Car", 20⟩] =
      .ok (roundHalfEven2 (((daysFromCivil 2024 1 1 * 1440 + 750 -
        (daysFromCivil 2024 1 1 * 1440 + 600) : Int) : ℚ) * 60 / 3600 *
        (⟨"Car", 20⟩ : RateEntry).ratePerHour)) :=
  C4_rent_formula_half_even.1 "Car" "01-01-2024 10:00"
    (daysFromCivil 2024 1 1 * 1440 + 600) (daysFromCivil 2024 1 1 * 1440 + 750)
    [⟨"Car", 20⟩] ⟨"Car", 20⟩ (by decide) (by decide) (by decide)

/-- Claim C6: for every category with a non-negative rate in the table and
valid timestamps with exit at or after entry, the rent is non-negative, and
it is monotonically non-decreasing as the exit time (hence the duration)
grows. -/
theorem C6_rent_nonneg_mono (vt es : String) (te t1 t2 : Int)
    (rates : List RateEntry) (r : RateEntry)
    (hparse : parseTimestamp es = some te)
    (hrate : (rates.filter (fun x => x.type == vt)).head? = some r)
    (hr : 0 ≤ r.ratePerHour) (h1 : te ≤ t1) (h12 : t1 ≤ t2) :
    ∃ q1 q2, calculate_rent vt es (.ts t1) rates = .ok q1 ∧
      calculate_rent vt es (.ts t2) rates = .ok q2 ∧ 0 ≤ q1 ∧ q1 ≤ q2 := by
  refine ⟨_, _, calculate_rent_eq hparse hrate t1,
    calculate_rent_eq hparse hrate t2, ?_, ?_⟩
  · apply roundHalfEven2_nonneg
    have hx : (0 : ℚ) ≤ ((t1 - te : Int) : ℚ) := by
      exact_mod_cast (by omega : (0 : Int) ≤ t1 - te)
    have h60 : (0 : ℚ) ≤ ((t1 - te : Int) : ℚ) * 60 / 3600 := by linarith
    exact mul_nonneg h60 hr
  · apply roundHalfEven2_mono
    have hx : ((t1 - te : Int) : ℚ) ≤ ((t2 - te : Int) : ℚ) := by
      exact_mod_cast (by omega : (t1 - te : Int) ≤ t2 - te)
    have h60 : ((t1 - te : Int) : ℚ) * 60 / 3600 ≤
        ((t2 - te : Int) : ℚ) * 60 / 3600 := by linarith
    exact mul_le_mul_of_nonneg_right h60 hr

/-- Claim C6 witness: instantiated at Car, rate 20.00, entry 10:00, exits
10:15 and 12:30. -/
theorem C6_witness :
    ∃ q1 q2, calculate_rent "Car" "01-01-2024 10:00"
        (.ts (daysFromCivil 2024 1 1 * 1440 + 615)) [⟨"Car", 20⟩] = .ok q1 ∧
      calculate_rent "Car" "01-01-2024 10:00"
        (.ts (daysFromCivil 2024 1 1 * 1440 + 750)) [⟨"Car", 20⟩] = .ok q2 ∧
      0 ≤ q1 ∧ q1 ≤ q2 :=
  C6_rent_nonneg_mono "Car" "01-01-2024 10:00"
    (daysFromCivil 2024 1 1 * 1440 + 600) (daysFromCivil 2024 1 1 * 1440 + 615)
    (daysFromCivil 2024 1 1 * 1440 + 750) [⟨"Car", 20⟩] ⟨"Car", 20⟩
    (by decide) (by decide) (by decide) (by decide) (by decide)

/-- Claim C7: for every category with no entry in the rate table (and a valid
entry timestamp and parsed exit timestamp, so that no earlier failure fires),
`calculate_rent` fails with the unknown-category error (the `IndexError`
raised by indexing the empty rate selection). -/
theorem C7_unknown_category (vt es : String) (te t : Int)
    (rates : List RateEntry)
    (hparse : parseTimestamp es = some te)
    (hnone : ∀ x ∈ rates, x.type ≠ vt) :
    calculate_rent vt es (.ts t) rates = .error .unknownCategoryError := by
  have hfil : rates.filter (fun x => x.type == vt) = [] := by
    rw [List.filter_eq_nil_iff]
    intro a ha
    simpa using hnone a ha
  simp only [calculate_rent, hparse, hfil, List.head?_nil]

/-- Claim C7 witness: category "Jet" is absent from a table holding only
Car. -/
theorem C7_witness :
    calculate_rent "Jet" "01-01-2024 10:00" (.ts 0) [⟨"Car", 20⟩] =
      .error .unknownCategoryError :=
  C7_unknown_category "Jet" "01-01-2024 10:00"
    (daysFromCivil 2024 1 1 * 1440 + 600) 0 [⟨"Car", 20⟩] (by decide) (by decide)

/-- Claim C8: for every category with a rate in the table and every valid
timestamp, a zero-duration session (exit equal to the parsed entry time)
yields exactly 0.00, not an error. -/
theorem C8_zero_duration (vt es : String) (te : Int)
    (rates : List RateEntry) (r : RateEntry)
    (hparse : parseTimestamp es = some te)
    (hrate : (rates.filter (fun x => x.type == vt)).head? = some r) :
    calculate_rent vt es (.ts te) rates = .ok 0 := by
  rw [calculate_rent_eq hparse hrate te]
  have hx : ((te - te : Int) : ℚ) = 0 := by push_cast; ring
  rw [hx]
  norm_num [roundHalfEven2_zero]

/-- Claim C8 witness: zero-duration Car session at 10:00. -/
theorem C8_witness :
    calculate_rent "Car" "01-01-2024 10:00"
      (.ts (daysFromCivil 2024 1 1 * 1440 + 600)) [⟨"Car", 20⟩] = .ok 0 :=
  C8_zero_duration "Car" "01-01-2024 10:00"
    (daysFromCivil 2024 1 1 * 1440 + 600) [⟨"Car", 20⟩] ⟨"Car", 20⟩
    (by decide) (by decide)

/-- Claim C10: `calculate_rent` treats its two time arguments asymmetrically.
With a valid entry string, passing `exit_time` as a raw string — even one in
perfectly valid `DD-MM-YYYY HH:MM` format — fails with the `TypeError` of
`str - Timestamp`; passing the parsed timestamp never produces that failure;
and the entry argument is parsed inside the function (an unparsable entry
string fails with the time-format error). -/
theorem C10_exit_arg_asymmetry (vt es s : String) (te t : Int)
    (rates : List RateEntry)
    (hentry : parseTimestamp es = some te)
    (_hs : parseTimestamp s = some t) :
    calculate_rent vt es (.str s) rates = .error .typeError ∧
    calculate_rent vt es (.ts t) rates ≠ .error .typeError ∧
    (∀ es2, parseTimestamp es2 = none →
      calculate_rent vt es2 (.ts t) rates = .error .timeFormatError) := by
  refine ⟨?_, ?_, ?_⟩
  · simp only [calculate_rent, hentry]
  · simp only [calculate_rent, hentry]
    cases (rates.filter (fun x => x.type == vt)).head? <;> simp
  · intro es2 h2
    simp only [calculate_rent, h2]

/-- Claim C10 witness: a well-formed exit string "01-01-2024 12:30" passed
raw still fails with the type error. -/
theorem C10_witness :
    calculate_rent "Car" "01-01-2024 10:00" (.str "01-01-2024 12:30")
      [⟨"Car", 20⟩] = .error .typeError :=
  (C10_exit_arg_asymmetry "Car" "01-01-2024 10:00" "01-01-2024 12:30"
    (daysFromCivil 2024 1 1 * 1440 + 600) (daysFromCivil 2024 1 1 * 1440 + 750)
    [⟨"Car", 20⟩] (by decide) (by decide)).1

/-- Claim C2 counterexample: appending a record whose token "T1" equals the
token of an existing open record does not fail: the row is appended anyway.
Likewise a record with an empty token is appended. -/
theorem C2_counterexample :
    add_vehicle [⟨"T1", "L1", "Car", "01-01-2024 10:00", none, "S1"⟩]
      "T1" "L2" "Bike" "01-01-2024 11:00" "S2" =
      [⟨"T1", "L1", "Car", "01-01-2024 10:00", none, "S1"⟩,
       ⟨"T1", "L2", "Bike", "01-01-2024 11:00", none, "S2"⟩] ∧
    add_vehicle [] "" "L3" "Car" "01-01-2024 10:00" "S3" =
      [⟨"", "L3", "Car", "01-01-2024 10:00", none, "S3"⟩] :=
  ⟨rfl, rfl⟩

/-- Claim C2 (amended): the form handler performs no validation: even when
the token is empty or equals the token of an existing open record, the new
open record is appended and the ledger grows by one. -/
theorem C2_append_unvalidated (ledger : List VehicleRecord)
    (tok lic vt et slot : String)
    (_hbad : tok = "" ∨ ∃ r ∈ ledger, r.token = tok ∧ r.exitTime = none) :
    add_vehicle ledger tok lic vt et slot =
      ledger ++ [⟨tok, lic, vt, et, none, slot⟩] ∧
    (add_vehicle ledger tok lic vt et slot).length = ledger.length + 1 := by
  exact ⟨rfl, by simp [add_vehicle]⟩

/-- Claim C2 witness: the amended statement at an empty token. -/
theorem C2_witness :
    add_vehicle [] "" "L3" "Car" "01-01-2024 10:00" "S3" =
      [] ++ [⟨"", "L3", "Car", "01-01-2024 10:00", none, "S3"⟩] ∧
    (add_vehicle [] "" "L3" "Car" "01-01-2024 10:00" "S3").length =
      ([] : List VehicleRecord).length + 1 :=
  C2_append_unvalidated [] "" "L3" "Car" "01-01-2024 10:00" "S3" (Or.inl rfl)

/-- Claim C3: for every ledger containing an open record with the given
token, after the exit handler's close step stamps the exit time, no open
record with that token remains, and every record carrying that token stores
exactly the exit timestamp that was passed in. -/
theorem C3_close_roundtrip (ledger : List VehicleRecord) (tok : String)
    (exitT : Int)
    (_hopen : ∃ r ∈ ledger, r.token = tok ∧ r.exitTime = none) :
    findOpenByToken (closeSession ledger tok exitT) tok = none ∧
    ∀ r ∈ closeSession ledger tok exitT, r.token = tok →
      r.exitTime = some exitT := by
  constructor
  · unfold findOpenByToken closeSession
    rw [List.find?_eq_none]
    intro x hx
    rw [List.mem_map] at hx
    obtain ⟨a, _, rfl⟩ := hx
    by_cases hat : a.token == tok
    · simp [hat]
    · simp [hat]
  · intro r hr htok
    unfold closeSession at hr
    rw [List.mem_map] at hr
    obtain ⟨a, _, rfl⟩ := hr
    by_cases hat : a.token == tok
    · simp [hat]
    · rw [if_neg (by simpa using hat)] at htok ⊢
      exact absurd htok (by simpa using hat)

/-- Claim C3 witness: a one-record ledger with open token "T1", closed at
timestamp 5. -/
theorem C3_witness :
    findOpenByToken (closeSession
      [⟨"T1", "L1", "Car", "01-01-2024 10:00", none, "S1"⟩] "T1" 5) "T1" = none ∧
    ∀ r ∈ closeSession
      [⟨"T1", "L1", "Car", "01-01-2024 10:00", none, "S1"⟩] "T1" 5,
      r.token = "T1" → r.exitTime = some 5 :=
  C3_close_roundtrip [⟨"T1", "L1", "Car", "01-01-2024 10:00", none, "S1"⟩]
    "T1" 5 (by decide)

/-- Claim C5: whenever the exit handler reports an error — the not-found
warning, a time-format failure, or any error raised inside `calculate_rent` —
the vehicles table it returns is exactly the input table; and a token
matching no record yields precisely the not-found outcome with the table
unchanged. -/
theorem C5_errors_preserve_ledger (ledger : List VehicleRecord)
    (tok ets : String) (rates : List RateEntry) :
    (∀ (e : RentError) (L : List VehicleRecord),
      exitHandler ledger tok ets rates = (.error e, L) → L = ledger) ∧
    ((∀ r ∈ ledger, r.token ≠ tok) →
      exitHandler ledger tok ets rates = (.error .notFoundError, ledger)) := by
  constructor
  · intro e L h
    unfold exitHandler at h
    split at h
    · simp only [Prod.mk.injEq] at h
      exact h.2.symm
    · split at h
      · simp only [Prod.mk.injEq] at h
        exact h.2.symm
      · split at h
        · simp only [Prod.mk.injEq] at h
          exact h.2.symm
        · simp only [Prod.mk.injEq] at h
          exact absurd h.1 (by simp)
  · intro hno
    have hfil : findToken ledger tok = [] := by
      unfold findToken
      rw [List.filter_eq_nil_iff]
      intro a ha
      simpa using hno a ha
    unfold exitHandler
    rw [hfil]
    rfl

/-- Claim C5 witness: an exit lookup with unknown token "X" on the empty
ledger yields the not-found outcome and leaves the ledger unchanged. -/
theorem C5_witness :
    exitHandler [] "X" "01-01-2024 10:00" [] = (.error .notFoundError, []) :=
  (C5_errors_preserve_ledger [] "X" "01-01-2024 10:00" []).2 (by simp)

/-- Claim C9 counterexample: when the classifier raises an internal error,
`detect_vehicle_type` does not degrade to "Unknown": it returns the error
string built from the exception message. -/
theorem C9_counterexample :
    detect_vehicle_type (.error "X") = "Error: X" ∧
    detect_vehicle_type (.error "X") ≠ "Unknown" := by
  exact ⟨rfl, by decide⟩

/-- Claim C9 (amended): when no decoded label matches a vehicle keyword the
detection yields "Unknown"; when the classifier raises an internal error the
detection yields the string "Error: <message>" instead of "Unknown"; and in
either case entry creation is never blocked — the form handler appends
unconditionally, whatever category value is submitted. -/
theorem C9_detect_degradation :
    (∀ e, detect_vehicle_type (.error e) = "Error: " ++ e) ∧
    (∀ preds : List String,
      (∀ p ∈ preds, strContains (strLower p) "car" = false ∧
        strContains (strLower p) "motorcycle" = false ∧
        strContains (strLower p) "truck" = false) →
      detect_vehicle_type (.ok preds) = "Unknown") ∧
    (∀ (ledger : List VehicleRecord) (tok lic vt et slot : String),
      (add_vehicle ledger tok lic vt et slot).length = ledger.length + 1) := by
  refine ⟨fun e => rfl, ?_, fun ledger tok lic vt et slot => by simp [add_vehicle]⟩
  intro preds hp
  show detectLoop preds = "Unknown"
  induction preds with
  | nil => rfl
  | cons p ps ih =>
    have hp0 := hp p (by simp)
    unfold detectLoop
    rw [hp0.1, hp0.2.1, hp0.2.2]
    simp only [Bool.false_eq_true, if_false]
    exact ih (fun q hq => hp q (by simp [hq]))

/-- Claim C9 witness: labels matching no vehicle keyword degrade to
"Unknown". -/
theorem C9_witness :
    detect_vehicle_type (.ok ["screen", "laptop"]) = "Unknown" :=
  C9_detect_degradation.2.1 ["screen", "laptop"] (by decide)

end Parking
